import Mathlib

/-!
# BLEScan: scan controller and advertisement decoder

A shallow embedding of `Arduino_package/hardware/libraries/BLE/src/BLEScan.cpp`.

* The scan controller (`startScan`, `stopScan`, the setters, `updateScanParams`,
  `scanInProgress`) is a family of functions on `BLEScan`, a record of the five
  configuration members, the static member `_scanProcessing`, and the trace of
  externally visible actions (console notices and calls into the GAP layer).
* The advertisement decoder (`printScanInfo`) is a loop over the 31-byte payload with
  an 8-bit cursor and a 32-byte scratch buffer.  Array accesses are checked
  (`Option`), the `while` loop takes fuel.

Machine integers are natural numbers reduced modulo `2^8` / `2^16` at the places where
the C++ code stores into a `uint8_t` / `uint16_t`.
-/

/-! ## Scan controller -/

/-- Values of the enumerators and macros that `BLEScan.cpp` uses but that are declared in
the GAP / FreeRTOS headers, which are not part of the translated source.  They are taken
as parameters: nothing below depends on their numeric values. -/
structure GapConsts where
  GAP_SCAN_MODE_PASSIVE : Nat
  GAP_SCAN_MODE_ACTIVE : Nat
  GAP_SCAN_FILTER_DUPLICATE_ENABLE : Nat
  GAP_SCAN_FILTER_DUPLICATE_DISABLE : Nat
  GAP_CAUSE_SUCCESS : Nat
  portTICK_RATE_MS : Nat
  deriving DecidableEq, Repr

/-- The console notices printed by the controller. -/
inductive Notice where
  /-- Printed by `startScan`: "[ERROR] Scan is processing, please stop it first". -/
  | scanIsProcessing
  /-- Printed by `startScan`: "[ERROR] Scan error". -/
  | scanError
  /-- Printed by `stopScan`: "[ERROR] There is no scan". -/
  | thereIsNoScan
  /-- Printed by `setScanWindow`:
  "[ERROR] Scan window should be less than or equal to scan interval". -/
  | windowShouldBeLeInterval
  deriving DecidableEq, Repr

/-- The five parameters pushed by `updateScanParams`. -/
inductive ScanParam where
  | GAP_PARAM_SCAN_MODE
  | GAP_PARAM_SCAN_INTERVAL
  | GAP_PARAM_SCAN_WINDOW
  | GAP_PARAM_SCAN_FILTER_POLICY
  | GAP_PARAM_SCAN_FILTER_DUPLICATES
  deriving DecidableEq, Repr

/-- Externally visible actions of the controller, in program order. -/
inductive ScanAction where
  | printf (n : Notice)
  | le_scan_start
  | le_scan_stop
  | le_scan_set_param (p : ScanParam) (value : Nat)
  | vTaskDelay (ticks : Nat)
  deriving DecidableEq, Repr

/-- State of the controller: the configuration members of a `BLEScan` object, the static
member `_scanProcessing` (a `uint8_t`), and the actions performed so far. -/
structure BLEScan where
  _scanMode : Nat
  _scanInterval : Nat
  _scanWindow : Nat
  _scanFilterPolicy : Nat
  _scanFilterDuplicate : Nat
  _scanProcessing : Nat
  trace : List ScanAction
  deriving DecidableEq, Repr

namespace BLEScan

/-- The conversion `ms * 1000 / 625` of lines 80, 86 and 91.  The operand is a `uint16_t`
promoted to `int`; for every 16-bit `ms` the product is below `2^31`, so the `int`
arithmetic is exact and is modelled on `Nat`. -/
def msToUnits (ms : Nat) : Nat := ms * 1000 / 625

/-- Source `BLEScan::startScan()`, lines 43-56.  `cause` is the value `le_scan_start()`
returns when it is called. -/
def startScan (K : GapConsts) (cause : Nat) (s : BLEScan) : BLEScan :=
  if s._scanProcessing ≠ 0 then
    { s with trace := s.trace ++ [ScanAction.printf Notice.scanIsProcessing] }
  else
    let s1 := { s with _scanProcessing := 1, trace := s.trace ++ [ScanAction.le_scan_start] }
    if cause ≠ K.GAP_CAUSE_SUCCESS then
      { s1 with _scanProcessing := 0, trace := s1.trace ++ [ScanAction.printf Notice.scanError] }
    else
      s1

/-- Source `BLEScan::stopScan()`, lines 58-66.  The value returned by `le_scan_stop()` is
discarded at line 61, so it is not an argument. -/
def stopScan (s : BLEScan) : BLEScan :=
  if s._scanProcessing ≠ 0 then
    { s with _scanProcessing := 0, trace := s.trace ++ [ScanAction.le_scan_stop] }
  else
    { s with trace := s.trace ++ [ScanAction.printf Notice.thereIsNoScan] }

/-- Source `BLEScan::startScan(uint32_t scanDuration_ms)`, lines 35-41. -/
def startScanFor (K : GapConsts) (cause : Nat) (scanDuration_ms : Nat) (s : BLEScan) : BLEScan :=
  let s1 := startScan K cause s
  let s2 := { s1 with trace := s1.trace ++ [ScanAction.vTaskDelay (scanDuration_ms / K.portTICK_RATE_MS)] }
  let s3 := stopScan s2
  { s3 with trace := s3.trace ++ [ScanAction.vTaskDelay (100 / K.portTICK_RATE_MS)] }

/-- Source `BLEScan::setScanMode(uint8_t)`, lines 68-75. -/
def setScanMode (K : GapConsts) (scanMode : Nat) (s : BLEScan) : BLEScan :=
  if scanMode = K.GAP_SCAN_MODE_PASSIVE then
    { s with _scanMode := K.GAP_SCAN_MODE_PASSIVE }
  else if scanMode = K.GAP_SCAN_MODE_ACTIVE then
    { s with _scanMode := K.GAP_SCAN_MODE_ACTIVE }
  else
    s

/-- Source `BLEScan::setScanInterval(uint16_t)`, lines 77-82.  The store into the 16-bit
member truncates modulo `2^16`. -/
def setScanInterval (scanInt_ms : Nat) (s : BLEScan) : BLEScan :=
  if 3 ≤ scanInt_ms ∧ scanInt_ms ≤ 10240 then
    { s with _scanInterval := msToUnits scanInt_ms % 65536 }
  else
    s

/-- Source `BLEScan::setScanWindow(uint16_t)`, lines 84-93.  The comparison of line 86 is
made on `int`, before any truncation. -/
def setScanWindow (scanWindow_ms : Nat) (s : BLEScan) : BLEScan :=
  if msToUnits scanWindow_ms > s._scanInterval then
    { s with trace := s.trace ++ [ScanAction.printf Notice.windowShouldBeLeInterval] }
  else if 3 ≤ scanWindow_ms ∧ scanWindow_ms ≤ 10240 then
    { s with _scanWindow := msToUnits scanWindow_ms % 65536 }
  else
    s

/-- Source `BLEScan::setScanDuplicateFilter(bool)`, lines 95-102. -/
def setScanDuplicateFilter (K : GapConsts) (dupeFilter : Bool) (s : BLEScan) : BLEScan :=
  if dupeFilter then
    { s with _scanFilterDuplicate := K.GAP_SCAN_FILTER_DUPLICATE_ENABLE }
  else
    { s with _scanFilterDuplicate := K.GAP_SCAN_FILTER_DUPLICATE_DISABLE }

/-- Source `BLEScan::scanInProgress()`, lines 104-110. -/
def scanInProgress (s : BLEScan) : Bool :=
  if s._scanProcessing ≠ 0 then true else false

/-- One call to a configuration setter, with its argument. -/
inductive SetterCall where
  | setScanMode (scanMode : Nat)
  | setScanInterval (scanInt_ms : Nat)
  | setScanWindow (scanWindow_ms : Nat)
  | setScanDuplicateFilter (dupeFilter : Bool)
  deriving DecidableEq, Repr

/-- Performs one setter call. -/
def SetterCall.run (K : GapConsts) (c : SetterCall) (s : BLEScan) : BLEScan :=
  match c with
  | .setScanMode m => BLEScan.setScanMode K m s
  | .setScanInterval ms => BLEScan.setScanInterval ms s
  | .setScanWindow ms => BLEScan.setScanWindow ms s
  | .setScanDuplicateFilter b => BLEScan.setScanDuplicateFilter K b s

/-- Performs a finite sequence of setter calls, first call first. -/
def runSetters (K : GapConsts) (cs : List SetterCall) (s : BLEScan) : BLEScan :=
  cs.foldl (fun acc c => c.run K acc) s

/-- A choice of the header constants, used to instantiate the theorems at concrete inputs. -/
def sdkConsts : GapConsts :=
  { GAP_SCAN_MODE_PASSIVE := 0
    GAP_SCAN_MODE_ACTIVE := 1
    GAP_SCAN_FILTER_DUPLICATE_ENABLE := 1
    GAP_SCAN_FILTER_DUPLICATE_DISABLE := 0
    GAP_CAUSE_SUCCESS := 0
    portTICK_RATE_MS := 1 }

/-- A configuration used to instantiate the theorems at concrete inputs: idle, interval
`0x40` units, window `0x30` units. -/
def sampleScan : BLEScan :=
  { _scanMode := 1
    _scanInterval := 0x40
    _scanWindow := 0x30
    _scanFilterPolicy := 0
    _scanFilterDuplicate := 1
    _scanProcessing := 0
    trace := [] }

/-! ## Advertisement decoder -/

/-- Modelled from the spec: the report type `T_LE_SCAN_INFO` is declared in the GAP headers,
not in the translated source.  Only the members the AD-structure loop reads are kept:
`data`, the `uint8_t data[31]` payload array, and `data_len`, the `uint8_t` payload length. -/
structure T_LE_SCAN_INFO where
  data : List Nat
  data_len : Nat
  deriving DecidableEq, Repr

/-- Modelled from the spec: tag of the Flags AD type (declared in the GAP headers). -/
def GAP_ADTYPE_FLAGS : Nat := 0x01
/-- Modelled from the spec: tag of 16-bit Service UUIDs, incomplete list. -/
def GAP_ADTYPE_16BIT_MORE : Nat := 0x02
/-- Modelled from the spec: tag of 16-bit Service UUIDs, complete list. -/
def GAP_ADTYPE_16BIT_COMPLETE : Nat := 0x03
/-- Modelled from the spec: tag of 32-bit Service UUIDs, incomplete list. -/
def GAP_ADTYPE_32BIT_MORE : Nat := 0x04
/-- Modelled from the spec: tag of 32-bit Service UUIDs, complete list. -/
def GAP_ADTYPE_32BIT_COMPLETE : Nat := 0x05
/-- Modelled from the spec: tag of 128-bit Service UUIDs, incomplete list. -/
def GAP_ADTYPE_128BIT_MORE : Nat := 0x06
/-- Modelled from the spec: tag of 128-bit Service UUIDs, complete list. -/
def GAP_ADTYPE_128BIT_COMPLETE : Nat := 0x07
/-- Modelled from the spec: tag of the shortened Local Name. -/
def GAP_ADTYPE_LOCAL_NAME_SHORT : Nat := 0x08
/-- Modelled from the spec: tag of the complete Local Name. -/
def GAP_ADTYPE_LOCAL_NAME_COMPLETE : Nat := 0x09
/-- Modelled from the spec: tag of the TX Power Level. -/
def GAP_ADTYPE_POWER_LEVEL : Nat := 0x0A
/-- Modelled from the spec: tag of the Peripheral Connection Interval Range. -/
def GAP_ADTYPE_SLAVE_CONN_INTERVAL_RANGE : Nat := 0x12
/-- Modelled from the spec: tag of Service Data. -/
def GAP_ADTYPE_SERVICE_DATA : Nat := 0x16
/-- Modelled from the spec: tag of Appearance. -/
def GAP_ADTYPE_APPEARANCE : Nat := 0x19
/-- Modelled from the spec: tag of Manufacturer Specific Data. -/
def GAP_ADTYPE_MANUFACTURER_SPECIFIC : Nat := 0xFF

/-- One line printed by the `switch` of `printScanInfo`, with the values it formats. -/
inductive ADField where
  /-- Line 169, "GAP_ADTYPE_FLAGS: 0x%X". -/
  | flags (v : Nat)
  /-- Line 179, "GAP_ADTYPE_16BIT_XXX: 0x%04X". -/
  | uuid16 (v : Nat)
  /-- Line 192, "GAP_ADTYPE_32BIT_XXX: 0x%08X". -/
  | uuid32 (v : Nat)
  /-- Line 202, "GAP_ADTYPE_128BIT_XXX: 0x%08X%08X%08X%08X", arguments in printed order. -/
  | uuid128 (w3 w2 w1 w0 : Nat)
  /-- Line 209, "GAP_ADTYPE_LOCAL_NAME_XXX: %s": the bytes before the first NUL. -/
  | localName (s : List Nat)
  /-- Line 214, "GAP_ADTYPE_POWER_LEVEL: 0x%X". -/
  | powerLevel (v : Nat)
  /-- Line 221, "GAP_ADTYPE_SLAVE_CONN_INTERVAL_RANGE: 0x%X - 0x%X". -/
  | connIntervalRange (min max : Nat)
  /-- Line 228, "GAP_ADTYPE_SERVICE_DATA: UUID 0x%X, len %d". -/
  | serviceData (uuid len : Nat)
  /-- Line 234, "GAP_ADTYPE_APPEARANCE: %d". -/
  | appearance (v : Nat)
  /-- Line 241, "GAP_ADTYPE_MANUFACTURER_SPECIFIC: company_id 0x%X, len %d". -/
  | manufacturerSpecific (company_id len : Nat)
  /-- Line 248, "AD Data: Unhandled Data = 0x%X". -/
  | unhandled (v : Nat)
  deriving DecidableEq, Repr

/-- Checked read of one byte: `none` when the index is outside the array. -/
def rd8 (xs : List Nat) (i : Nat) : Option Nat := xs[i]?

/-- Checked read of a `uint16_t` through a pointer cast into a byte array, at byte offset
`off` (little-endian target). -/
def rd16 (xs : List Nat) (off : Nat) : Option Nat :=
  match rd8 xs off, rd8 xs (off + 1) with
  | some b0, some b1 => some (b0 + 256 * b1)
  | _, _ => none

/-- Checked read of a `uint32_t` through a pointer cast into a byte array, at byte offset
`off` (little-endian target). -/
def rd32 (xs : List Nat) (off : Nat) : Option Nat :=
  match rd8 xs off, rd8 xs (off + 1), rd8 xs (off + 2), rd8 xs (off + 3) with
  | some b0, some b1, some b2, some b3 => some (b0 + 256 * b1 + 65536 * b2 + 16777216 * b3)
  | _, _, _, _ => none

/-- Checked `memcpy(dst, src + off, n)`: `none` when it would read outside `src` or write
outside `dst`. -/
def memcpy (dst src : List Nat) (off n : Nat) : Option (List Nat) :=
  if off + n ≤ src.length ∧ n ≤ dst.length then
    some ((src.drop off).take n ++ dst.drop n)
  else
    none

/-- Checked store `buffer[i] = v`. -/
def wr8 (xs : List Nat) (i v : Nat) : Option (List Nat) :=
  if i < xs.length then some (xs.set i v) else none

/-- The bytes `printf("%s", buffer)` prints: those before the first NUL; `none` when the
array holds no NUL, so that the read would run past its end. -/
def cstr (xs : List Nat) : Option (List Nat) :=
  if 0 ∈ xs then some (xs.takeWhile (fun b => b ≠ 0)) else none

/-- Lines 176-182: `i = length - 1; while (i >= 2) { print *p_uuid; p_uuid++; i -= 2; }`,
with `off` the byte offset of `p_uuid` in `buffer`. -/
def uuid16Loop (buffer : List Nat) : Nat → Nat → Option (List ADField)
  | off, i + 2 =>
    match rd16 buffer off, uuid16Loop buffer (off + 2) i with
    | some v, some rest => some (ADField.uuid16 v :: rest)
    | _, _ => none
  | _, _ => some []

/-- Lines 189-195: `i = length - 1; while (i >= 4) { print *p_uuid; p_uuid++; i -= 4; }`,
with `off` the byte offset of `p_uuid` in `buffer`. -/
def uuid32Loop (buffer : List Nat) : Nat → Nat → Option (List ADField)
  | off, i + 4 =>
    match rd32 buffer off, uuid32Loop buffer (off + 4) i with
    | some v, some rest => some (ADField.uuid32 v :: rest)
    | _, _ => none
  | _, _ => some []

/-- Lines 246-249: `for (i = 0; i < (length - 1); i++) print data[pos + i]`; `idx` is
`pos + i` and the last argument is the number of iterations left, `length - 1 - i`. -/
def unhandledLoop (data : List Nat) : Nat → Nat → Option (List ADField)
  | _, 0 => some []
  | idx, n + 1 =>
    match rd8 data idx, unhandledLoop data (idx + 1) n with
    | some v, some rest => some (ADField.unhandled v :: rest)
    | _, _ => none

/-- The `switch (type)` of lines 161-252.  `pos` is the cursor after the length byte (the
index of the type byte), `buffer` the scratch buffer after the `memcpy` of line 153.
Returns the lines printed and the scratch buffer afterwards (the local-name case writes a
NUL into it); `none` when an access is out of range. -/
def adSwitch (data : List Nat) (pos length type : Nat) (buffer : List Nat) :
    Option (List ADField × List Nat) :=
  if type = GAP_ADTYPE_FLAGS then
    match rd8 data (pos + 1) with
    | some flags => some ([ADField.flags flags], buffer)
    | none => none
  else if type = GAP_ADTYPE_16BIT_MORE ∨ type = GAP_ADTYPE_16BIT_COMPLETE then
    match uuid16Loop buffer 0 ((length - 1) % 256) with
    | some fs => some (fs, buffer)
    | none => none
  else if type = GAP_ADTYPE_32BIT_MORE ∨ type = GAP_ADTYPE_32BIT_COMPLETE then
    match uuid32Loop buffer 0 ((length - 1) % 256) with
    | some fs => some (fs, buffer)
    | none => none
  else if type = GAP_ADTYPE_128BIT_MORE ∨ type = GAP_ADTYPE_128BIT_COMPLETE then
    match rd32 buffer 12, rd32 buffer 8, rd32 buffer 4, rd32 buffer 0 with
    | some w3, some w2, some w1, some w0 => some ([ADField.uuid128 w3 w2 w1 w0], buffer)
    | _, _, _, _ => none
  else if type = GAP_ADTYPE_LOCAL_NAME_SHORT ∨ type = GAP_ADTYPE_LOCAL_NAME_COMPLETE then
    match wr8 buffer (length - 1) 0 with
    | some buffer1 =>
      match cstr buffer1 with
      | some name => some ([ADField.localName name], buffer1)
      | none => none
    | none => none
  else if type = GAP_ADTYPE_POWER_LEVEL then
    match rd8 data (pos + 1) with
    | some v => some ([ADField.powerLevel v], buffer)
    | none => none
  else if type = GAP_ADTYPE_SLAVE_CONN_INTERVAL_RANGE then
    match rd16 buffer 0, rd16 buffer 2 with
    | some min, some max => some ([ADField.connIntervalRange min max], buffer)
    | _, _ => none
  else if type = GAP_ADTYPE_SERVICE_DATA then
    match rd16 buffer 0 with
    | some uuid => some ([ADField.serviceData uuid ((length + 256 - 3) % 256)], buffer)
    | none => none
  else if type = GAP_ADTYPE_APPEARANCE then
    match rd16 buffer 0 with
    | some v => some ([ADField.appearance v], buffer)
    | none => none
  else if type = GAP_ADTYPE_MANUFACTURER_SPECIFIC then
    match rd16 buffer 0 with
    | some company_id =>
      some ([ADField.manufacturerSpecific company_id ((length + 256 - 3) % 256)], buffer)
    | none => none
  else
    match unhandledLoop data pos (length - 1) with
    | some fs => some (fs, buffer)
    | none => none

/-- An AD structure that passed the test of line 151: the cursor `pos` after its length
byte, its `length` and `type` bytes, and the scratch buffer right after the `memcpy` of
line 153.  (With `BTDEBUG` set, line 158 prints `type` and `length - 1` of each.) -/
structure ADVisit where
  pos : Nat
  length : Nat
  type : Nat
  buffer : List Nat
  deriving DecidableEq, Repr

/-- State of the `while` loop of lines 146-255: the 8-bit cursor `pos`, the scratch
`buffer`, the lines printed so far and the structures accepted so far. -/
structure LoopState where
  pos : Nat
  buffer : List Nat
  out : List ADField
  visits : List ADVisit
  deriving DecidableEq, Repr

/-- One iteration of the `while` loop, lines 147-254; `none` when an array access is out
of range.  `pos++` and `pos += length` wrap modulo `2^8`; the test `(pos + length) <= 31`
is made on `int`. -/
def loopBody (scan_info : T_LE_SCAN_INFO) (st : LoopState) : Option LoopState :=
  match rd8 scan_info.data st.pos with
  | none => none
  | some length =>
    let pos := (st.pos + 1) % 256
    if 0x01 < length ∧ pos + length ≤ 31 then
      match memcpy st.buffer scan_info.data (pos + 1) (length - 1) with
      | none => none
      | some buffer =>
        match rd8 scan_info.data pos with
        | none => none
        | some type =>
          match adSwitch scan_info.data pos length type buffer with
          | none => none
          | some (fields, buffer1) =>
            some { pos := (pos + length) % 256
                   buffer := buffer1
                   out := st.out ++ fields
                   visits := st.visits ++ [{ pos := pos, length := length, type := type, buffer := buffer }] }
    else
      some { st with pos := (pos + length) % 256 }

/-- How a run of the loop ends. -/
inductive Run where
  /-- The loop condition `pos < data_len` became false in the given state. -/
  | done (st : LoopState)
  /-- An array access was out of range. -/
  | outOfRange
  /-- The loop was still running when the fuel ran out. -/
  | outOfFuel
  deriving DecidableEq, Repr

/-- The `while (pos < scan_info->data_len)` loop of lines 146-255, run for at most `fuel`
iterations. -/
def whileLoop (scan_info : T_LE_SCAN_INFO) : Nat → LoopState → Run
  | 0, st => if st.pos < scan_info.data_len then Run.outOfFuel else Run.done st
  | fuel + 1, st =>
    if st.pos < scan_info.data_len then
      match loopBody scan_info st with
      | none => Run.outOfRange
      | some st1 => whileLoop scan_info fuel st1
    else
      Run.done st

/-- Source `BLEScan::printScanInfo`, lines 143-255: the AD-structure loop started with
`pos = 0` and the scratch buffer in its initial (uninitialised, hence arbitrary) contents
`buffer0`.  The two header lines printed before it (lines 118-141) do not touch the
cursor or the buffer and are not modelled. -/
def printScanInfo (scan_info : T_LE_SCAN_INFO) (buffer0 : List Nat) (fuel : Nat) : Run :=
  whileLoop scan_info fuel { pos := 0, buffer := buffer0, out := [], visits := [] }

/-- The 31-byte payload array holding `payload` followed by zero bytes. -/
def padTo31 (payload : List Nat) : List Nat :=
  payload ++ List.replicate (31 - payload.length) 0

/-- The report whose payload is `payload`, in a zero-padded 31-byte array. -/
def reportOf (payload : List Nat) : T_LE_SCAN_INFO :=
  { data := padTo31 payload, data_len := payload.length }

/-- A scratch buffer of 32 zero bytes. -/
def zeroBuffer : List Nat := List.replicate 32 0

/-- The configuration `sampleScan` with a scan session in progress. -/
def activeScan : BLEScan :=
  { sampleScan with _scanProcessing := 1 }

/-- An AD structure to be encoded: its type tag and its data bytes. -/
structure ADStructure where
  type : Nat
  data : List Nat
  deriving DecidableEq, Repr

/-- Encoding of one AD structure: the length byte `|data| + 1`, the type byte, the data. -/
def encodeAD (a : ADStructure) : List Nat :=
  (a.data.length + 1) :: a.type :: a.data

/-- Encoding of a list of AD structures: the concatenation of their encodings. -/
def encodeADs : List ADStructure → List Nat
  | [] => []
  | a :: rest => encodeAD a ++ encodeADs rest

/-- The structure a visit of the decoder stands for: its type byte and the first
`length - 1` bytes of the scratch buffer after the `memcpy`. -/
def ADVisit.toStructure (v : ADVisit) : ADStructure :=
  { type := v.type, data := v.buffer.take (v.length - 1) }

/-- The lines printed by a run that left the loop; `none` for a run that did not. -/
def Run.fields : Run → Option (List ADField)
  | Run.done st => some st.out
  | Run.outOfRange => none
  | Run.outOfFuel => none

/-- The run `r` seen after the lines `before` were already printed. -/
def Run.printedAfter (before : List ADField) : Run → Run
  | Run.done st => Run.done { st with out := before ++ st.out }
  | Run.outOfRange => Run.outOfRange
  | Run.outOfFuel => Run.outOfFuel

/-- The data bytes of the structure whose type byte is at `pos` and whose declared length
is `length`: the `length - 1` bytes of the payload array that follow the type byte. -/
def adData (scan_info : T_LE_SCAN_INFO) (pos length : Nat) : List Nat :=
  (scan_info.data.drop (pos + 1)).take (length - 1)

end BLEScan

/-! ## Theorems: scan controller -/

namespace BLEScan

/-- C1 (defect in `setScanInterval`): the invariant `_scanWindow <= _scanInterval` is not
preserved by the setters.  From the configuration `sampleScan`, which satisfies it
(window 48, interval 64), the single call `setScanInterval(3)` stores interval 4 and keeps
window 48; and from every configuration whatsoever the calls `setScanInterval(100)`,
`setScanWindow(100)`, `setScanInterval(3)` end with window 160 above interval 4. -/
theorem setScanInterval_breaks_window_le_interval :
    sampleScan._scanWindow ≤ sampleScan._scanInterval ∧
    (runSetters sdkConsts [SetterCall.setScanInterval 3] sampleScan)._scanInterval = 4 ∧
    (runSetters sdkConsts [SetterCall.setScanInterval 3] sampleScan)._scanWindow = 48 ∧
    ∀ (K : GapConsts) (s : BLEScan),
      (runSetters K [SetterCall.setScanInterval 100, SetterCall.setScanWindow 100,
          SetterCall.setScanInterval 3] s)._scanInterval = 4 ∧
      (runSetters K [SetterCall.setScanInterval 100, SetterCall.setScanWindow 100,
          SetterCall.setScanInterval 3] s)._scanWindow = 160 := by
  refine ⟨by decide, by decide, by decide, ?_⟩
  intro K s
  simp [runSetters, SetterCall.run, setScanInterval, setScanWindow, msToUnits]

/-- C6: for `3 <= ms <= 10240`, after `setScanInterval(ms)` the configured interval is
`ms * 1000 / 625` (truncating); the product stays below `2^31` (no `int` overflow) and the
quotient lies in `[4, 16384]`, hence below `2^16`, so the 16-bit store is exact. -/
theorem setScanInterval_in_range (ms : Nat) (s : BLEScan) (h3 : 3 ≤ ms) (h : ms ≤ 10240) :
    (setScanInterval ms s)._scanInterval = ms * 1000 / 625 ∧
    ms * 1000 < 2 ^ 31 ∧
    4 ≤ ms * 1000 / 625 ∧ ms * 1000 / 625 ≤ 16384 ∧ ms * 1000 / 625 < 2 ^ 16 := by
  have h4 : 4 ≤ ms * 1000 / 625 := by omega
  have h5 : ms * 1000 / 625 ≤ 16384 := by omega
  refine ⟨?_, by omega, h4, h5, by omega⟩
  have hmod : ms * 1000 / 625 % 65536 = ms * 1000 / 625 := Nat.mod_eq_of_lt (by omega)
  simp [setScanInterval, msToUnits, h3, h, hmod]

/-- Instance of `setScanInterval_in_range` at `ms = 3`. -/
theorem setScanInterval_in_range_witness :
    (3 ≤ 3 ∧ 3 ≤ 10240) ∧ (setScanInterval 3 sampleScan)._scanInterval = 3 * 1000 / 625 :=
  ⟨by decide, (setScanInterval_in_range 3 sampleScan (by decide) (by decide)).1⟩

/-- C7: for every 16-bit `ms`, in or out of `[3, 10240]`, if `ms * 1000 / 625` exceeds the
configured interval then `setScanWindow(ms)` prints the window/interval notice and changes
nothing else: the window and every other member are as before. -/
theorem setScanWindow_exceeds_interval (ms : Nat) (s : BLEScan) (_hms : ms < 65536)
    (h : s._scanInterval < ms * 1000 / 625) :
    setScanWindow ms s =
      { s with trace := s.trace ++ [ScanAction.printf Notice.windowShouldBeLeInterval] } ∧
    (setScanWindow ms s)._scanWindow = s._scanWindow := by
  have h1 : msToUnits ms > s._scanInterval := h
  simp [setScanWindow, h1]

/-- Instance of `setScanWindow_exceeds_interval` at the out-of-range `ms = 20000` (32000
units against an interval of 64). -/
theorem setScanWindow_exceeds_interval_witness :
    (20000 < 65536 ∧ sampleScan._scanInterval < 20000 * 1000 / 625) ∧
    (setScanWindow 20000 sampleScan)._scanWindow = sampleScan._scanWindow :=
  ⟨by decide, (setScanWindow_exceeds_interval 20000 sampleScan (by decide) (by decide)).2⟩

/-- C8: for every 16-bit `ms` with `ms * 1000 / 625` at most the configured interval,
`setScanWindow(ms)` prints nothing; the window becomes `ms * 1000 / 625` when
`3 <= ms <= 10240` and is unchanged when `ms < 3`; mode, interval, filter policy,
duplicate filter and the session flag are unchanged. -/
theorem setScanWindow_within_interval (ms : Nat) (s : BLEScan) (_hms : ms < 65536)
    (h : ms * 1000 / 625 ≤ s._scanInterval) :
    (setScanWindow ms s).trace = s.trace ∧
    (3 ≤ ms ∧ ms ≤ 10240 → (setScanWindow ms s)._scanWindow = ms * 1000 / 625) ∧
    (ms < 3 → (setScanWindow ms s)._scanWindow = s._scanWindow) ∧
    (setScanWindow ms s)._scanMode = s._scanMode ∧
    (setScanWindow ms s)._scanInterval = s._scanInterval ∧
    (setScanWindow ms s)._scanFilterPolicy = s._scanFilterPolicy ∧
    (setScanWindow ms s)._scanFilterDuplicate = s._scanFilterDuplicate ∧
    (setScanWindow ms s)._scanProcessing = s._scanProcessing := by
  have h1 : ¬ (s._scanInterval < ms * 1000 / 625) := by omega
  by_cases hr : 3 ≤ ms ∧ ms ≤ 10240
  · have hmod : ms * 1000 / 625 % 65536 = ms * 1000 / 625 :=
      Nat.mod_eq_of_lt (by omega)
    have hlt : ¬ ms < 3 := by omega
    simp [setScanWindow, h1, hr, msToUnits, hmod, hlt]
  · simp [setScanWindow, msToUnits, h1, hr]

/-- Instance of `setScanWindow_within_interval` at `ms = 10` (16 units against an interval
of 64). -/
theorem setScanWindow_within_interval_witness :
    (10 < 65536 ∧ 10 * 1000 / 625 ≤ sampleScan._scanInterval) ∧
    (setScanWindow 10 sampleScan)._scanWindow = 10 * 1000 / 625 :=
  ⟨by decide,
   (setScanWindow_within_interval 10 sampleScan (by decide) (by decide)).2.1 (by decide)⟩

/-- C9: when the session flag is set, `startScan()` only prints the "scan is processing"
notice: it does not call `le_scan_start`, keeps the flag, and `scanInProgress()` stays
true.  Hence, from an idle state, a `startScan()` accepted by the radio followed by a
second `startScan()` (whatever the radio would answer) performs one `le_scan_start`, then
prints that notice, and ends with `scanInProgress()` true. -/
theorem startScan_while_scanning (K : GapConsts) (cause : Nat) (s : BLEScan) :
    (s._scanProcessing ≠ 0 →
      startScan K cause s =
        { s with trace := s.trace ++ [ScanAction.printf Notice.scanIsProcessing] } ∧
      (startScan K cause s)._scanProcessing = s._scanProcessing ∧
      scanInProgress (startScan K cause s) = true) ∧
    (s._scanProcessing = 0 →
      startScan K cause (startScan K K.GAP_CAUSE_SUCCESS s) =
        { s with
          _scanProcessing := 1
          trace := s.trace ++
            [ScanAction.le_scan_start, ScanAction.printf Notice.scanIsProcessing] } ∧
      scanInProgress (startScan K cause (startScan K K.GAP_CAUSE_SUCCESS s)) = true) := by
  constructor
  · intro h
    simp [startScan, scanInProgress, h]
  · intro h
    simp [startScan, scanInProgress, h]

/-- Instances of `startScan_while_scanning`: a start during the session of `activeScan`,
and two starts from the idle `sampleScan`, the second answered with a failure cause that
is never consulted. -/
theorem startScan_while_scanning_witness :
    (activeScan._scanProcessing ≠ 0 ∧
      scanInProgress (startScan sdkConsts 7 activeScan) = true) ∧
    (sampleScan._scanProcessing = 0 ∧
      scanInProgress (startScan sdkConsts 7 (startScan sdkConsts sdkConsts.GAP_CAUSE_SUCCESS
        sampleScan)) = true) :=
  ⟨⟨by decide, ((startScan_while_scanning sdkConsts 7 activeScan).1 (by decide)).2.2⟩,
   ⟨by decide, ((startScan_while_scanning sdkConsts 7 sampleScan).2 (by decide)).2⟩⟩

/-- C10: for `startScan()` called while idle, `scanInProgress()` is afterwards true exactly
when `le_scan_start()` returned `GAP_CAUSE_SUCCESS`; when it returned anything else the
"scan error" notice is printed after the call and `scanInProgress()` is false. -/
theorem startScan_from_idle (K : GapConsts) (cause : Nat) (s : BLEScan)
    (hidle : s._scanProcessing = 0) :
    (scanInProgress (startScan K cause s) = true ↔ cause = K.GAP_CAUSE_SUCCESS) ∧
    (cause ≠ K.GAP_CAUSE_SUCCESS →
      startScan K cause s =
        { s with trace := s.trace ++
            [ScanAction.le_scan_start, ScanAction.printf Notice.scanError] } ∧
      scanInProgress (startScan K cause s) = false) := by
  by_cases hc : cause = K.GAP_CAUSE_SUCCESS
  · simp [startScan, scanInProgress, hidle, hc]
  · simp [startScan, scanInProgress, hidle, hc]

/-- Instance of `startScan_from_idle`: the radio rejects the start with cause 7. -/
theorem startScan_from_idle_witness :
    sampleScan._scanProcessing = 0 ∧ scanInProgress (startScan sdkConsts 7 sampleScan) = false :=
  ⟨by decide, ((startScan_from_idle sdkConsts 7 sampleScan (by decide)).2 (by decide)).2⟩

end BLEScan

/-! ## Theorems: advertisement decoder -/

namespace BLEScan

/-- A byte read below the array length succeeds. -/
theorem rd8_of_lt (xs : List Nat) (i : Nat) (h : i < xs.length) :
    rd8 xs i = some (xs.getD i 0) := by
  simp [rd8, List.getD, List.getElem?_eq_getElem h]

/-- A 16-bit read whose two bytes lie in the array succeeds. -/
theorem rd16_of_lt (xs : List Nat) (off : Nat) (h : off + 1 < xs.length) :
    rd16 xs off = some (xs.getD off 0 + 256 * xs.getD (off + 1) 0) := by
  simp [rd16, rd8_of_lt xs off (by omega), rd8_of_lt xs (off + 1) h]

/-- A 32-bit read whose four bytes lie in the array succeeds. -/
theorem rd32_of_lt (xs : List Nat) (off : Nat) (h : off + 3 < xs.length) :
    rd32 xs off = some (xs.getD off 0 + 256 * xs.getD (off + 1) 0 +
      65536 * xs.getD (off + 2) 0 + 16777216 * xs.getD (off + 3) 0) := by
  simp [rd32, rd8_of_lt xs off (by omega), rd8_of_lt xs (off + 1) (by omega),
    rd8_of_lt xs (off + 2) (by omega), rd8_of_lt xs (off + 3) h]

/-- The 16-bit UUID loop stays in range when `off + i` bytes are available. -/
theorem uuid16Loop_isSome (buffer : List Nat) (i : Nat) :
    ∀ off, off + i ≤ buffer.length → ∃ fs, uuid16Loop buffer off i = some fs := by
  induction i using Nat.strong_induction_on with
  | _ i ih =>
    intro off h
    match i with
    | 0 => exact ⟨[], by simp [uuid16Loop]⟩
    | 1 => exact ⟨[], by simp [uuid16Loop]⟩
    | j + 2 =>
      obtain ⟨rest, hrest⟩ := ih j (by omega) (off + 2) (by omega)
      simp only [uuid16Loop, rd16_of_lt buffer off (by omega), hrest]
      exact ⟨_, rfl⟩

/-- The 32-bit UUID loop stays in range when `off + i` bytes are available. -/
theorem uuid32Loop_isSome (buffer : List Nat) (i : Nat) :
    ∀ off, off + i ≤ buffer.length → ∃ fs, uuid32Loop buffer off i = some fs := by
  induction i using Nat.strong_induction_on with
  | _ i ih =>
    intro off h
    match i with
    | 0 => exact ⟨[], by simp [uuid32Loop]⟩
    | 1 => exact ⟨[], by simp [uuid32Loop]⟩
    | 2 => exact ⟨[], by simp [uuid32Loop]⟩
    | 3 => exact ⟨[], by simp [uuid32Loop]⟩
    | j + 4 =>
      obtain ⟨rest, hrest⟩ := ih j (by omega) (off + 4) (by omega)
      simp only [uuid32Loop, rd32_of_lt buffer off (by omega), hrest]
      exact ⟨_, rfl⟩

/-- The unhandled-byte loop stays in range when `idx + n` bytes are available. -/
theorem unhandledLoop_isSome (data : List Nat) (n : Nat) :
    ∀ idx, idx + n ≤ data.length → ∃ fs, unhandledLoop data idx n = some fs := by
  induction n with
  | zero => intro idx _; exact ⟨[], by simp [unhandledLoop]⟩
  | succ n ih =>
    intro idx h
    obtain ⟨rest, hrest⟩ := ih (idx + 1) (by omega)
    simp only [unhandledLoop, rd8_of_lt data idx (by omega), hrest]
    exact ⟨_, rfl⟩

/-- After a NUL is stored inside the buffer, the string read finds a terminator. -/
theorem cstr_wr8_isSome (buffer : List Nat) (i : Nat) (h : i < buffer.length) :
    ∃ b1 name, wr8 buffer i 0 = some b1 ∧ cstr b1 = some name ∧ b1.length = buffer.length := by
  refine ⟨buffer.set i 0, (buffer.set i 0).takeWhile (fun b => b ≠ 0), ?_, ?_, ?_⟩
  · simp [wr8, h]
  · have hmem : 0 ∈ buffer.set i 0 := by
      rw [List.mem_iff_getElem]
      exact ⟨i, by simpa using h, by simp⟩
    simp [cstr, hmem]
  · simp

/-- The `switch` makes no out-of-range access for a structure that passed the test of
line 151, and leaves the scratch buffer 32 bytes long. -/
theorem adSwitch_isSome (data : List Nat) (pos length type : Nat) (buffer : List Nat)
    (hdata : data.length = 31) (hbuf : buffer.length = 32)
    (hlen : 1 < length) (hfit : pos + length ≤ 31) :
    ∃ fs b1, adSwitch data pos length type buffer = some (fs, b1) ∧ b1.length = 32 := by
  have r8 := rd8_of_lt data (pos + 1) (by omega)
  have r16a := rd16_of_lt buffer 0 (by omega)
  have r16b := rd16_of_lt buffer 2 (by omega)
  have r32a := rd32_of_lt buffer 0 (by omega)
  have r32b := rd32_of_lt buffer 4 (by omega)
  have r32c := rd32_of_lt buffer 8 (by omega)
  have r32d := rd32_of_lt buffer 12 (by omega)
  obtain ⟨f16, h16⟩ := uuid16Loop_isSome buffer ((length - 1) % 256) 0 (by omega)
  obtain ⟨f32, h32⟩ := uuid32Loop_isSome buffer ((length - 1) % 256) 0 (by omega)
  obtain ⟨fu, hu⟩ := unhandledLoop_isSome data (length - 1) pos (by omega)
  obtain ⟨b1, name, hw, hc, hl⟩ := cstr_wr8_isSome buffer (length - 1) (by omega)
  unfold adSwitch
  by_cases c1 : type = GAP_ADTYPE_FLAGS
  · rw [if_pos c1, r8]; exact ⟨_, _, rfl, hbuf⟩
  rw [if_neg c1]
  by_cases c2 : type = GAP_ADTYPE_16BIT_MORE ∨ type = GAP_ADTYPE_16BIT_COMPLETE
  · rw [if_pos c2, h16]; exact ⟨_, _, rfl, hbuf⟩
  rw [if_neg c2]
  by_cases c3 : type = GAP_ADTYPE_32BIT_MORE ∨ type = GAP_ADTYPE_32BIT_COMPLETE
  · rw [if_pos c3, h32]; exact ⟨_, _, rfl, hbuf⟩
  rw [if_neg c3]
  by_cases c4 : type = GAP_ADTYPE_128BIT_MORE ∨ type = GAP_ADTYPE_128BIT_COMPLETE
  · rw [if_pos c4, r32a, r32b, r32c, r32d]; exact ⟨_, _, rfl, hbuf⟩
  rw [if_neg c4]
  by_cases c5 : type = GAP_ADTYPE_LOCAL_NAME_SHORT ∨ type = GAP_ADTYPE_LOCAL_NAME_COMPLETE
  · rw [if_pos c5, hw]
    simp only [hc]
    exact ⟨_, _, rfl, by omega⟩
  rw [if_neg c5]
  by_cases c6 : type = GAP_ADTYPE_POWER_LEVEL
  · rw [if_pos c6, r8]; exact ⟨_, _, rfl, hbuf⟩
  rw [if_neg c6]
  by_cases c7 : type = GAP_ADTYPE_SLAVE_CONN_INTERVAL_RANGE
  · rw [if_pos c7, r16a, r16b]; exact ⟨_, _, rfl, hbuf⟩
  rw [if_neg c7]
  by_cases c8 : type = GAP_ADTYPE_SERVICE_DATA
  · rw [if_pos c8, r16a]; exact ⟨_, _, rfl, hbuf⟩
  rw [if_neg c8]
  by_cases c9 : type = GAP_ADTYPE_APPEARANCE
  · rw [if_pos c9, r16a]; exact ⟨_, _, rfl, hbuf⟩
  rw [if_neg c9]
  by_cases c10 : type = GAP_ADTYPE_MANUFACTURER_SPECIFIC
  · rw [if_pos c10, r16a]; exact ⟨_, _, rfl, hbuf⟩
  rw [if_neg c10, hu]; exact ⟨_, _, rfl, hbuf⟩

/-- An in-range `memcpy` succeeds and keeps the length of the destination. -/
theorem memcpy_of_le (dst src : List Nat) (off n : Nat) (h1 : off + n ≤ src.length)
    (h2 : n ≤ dst.length) :
    memcpy dst src off n = some ((src.drop off).take n ++ dst.drop n) ∧
    ((src.drop off).take n ++ dst.drop n).length = dst.length := by
  constructor
  · simp [memcpy, h1, h2]
  · simp only [List.length_append, List.length_take, List.length_drop]
    omega

end BLEScan

namespace BLEScan

/-- A structure rejected by the test of line 151 only moves the cursor. -/
theorem loopBody_skip (si : T_LE_SCAN_INFO) (st : LoopState) (length : Nat)
    (hrd : rd8 si.data st.pos = some length)
    (hrej : ¬ (0x01 < length ∧ (st.pos + 1) % 256 + length ≤ 31)) :
    loopBody si st = some { st with pos := ((st.pos + 1) % 256 + length) % 256 } := by
  simp only [loopBody, hrd, if_neg hrej]

/-- A structure accepted by the test of line 151 is copied, dispatched on, and appended to
the visits; no access is out of range. -/
theorem loopBody_accept (si : T_LE_SCAN_INFO) (st : LoopState) (length : Nat)
    (hdata : si.data.length = 31) (hbuf : st.buffer.length = 32)
    (hrd : rd8 si.data st.pos = some length)
    (hlen : 1 < length) (hfit : st.pos + 1 + length ≤ 31) :
    ∃ type fs b1,
      rd8 si.data (st.pos + 1) = some type ∧ b1.length = 32 ∧
      loopBody si st = some
        { pos := st.pos + 1 + length
          buffer := b1
          out := st.out ++ fs
          visits := st.visits ++
            [{ pos := st.pos + 1, length := length, type := type,
               buffer := (si.data.drop (st.pos + 1 + 1)).take (length - 1) ++
                 st.buffer.drop (length - 1) }] } := by
  have hp : (st.pos + 1) % 256 = st.pos + 1 := Nat.mod_eq_of_lt (by omega)
  have hq : (st.pos + 1 + length) % 256 = st.pos + 1 + length := Nat.mod_eq_of_lt (by omega)
  have hacc : 0x01 < length ∧ (st.pos + 1) % 256 + length ≤ 31 := by
    rw [hp]; exact ⟨hlen, hfit⟩
  obtain ⟨hm, hml⟩ := memcpy_of_le st.buffer si.data (st.pos + 1 + 1) (length - 1)
    (by omega) (by omega)
  have ht := rd8_of_lt si.data (st.pos + 1) (by omega)
  obtain ⟨fs, b1, hsw, hb1⟩ := adSwitch_isSome si.data (st.pos + 1) length
    (si.data.getD (st.pos + 1) 0)
    ((si.data.drop (st.pos + 1 + 1)).take (length - 1) ++ st.buffer.drop (length - 1))
    hdata (by rw [hml, hbuf]) hlen hfit
  refine ⟨_, fs, b1, ht, hb1, ?_⟩
  have hacc2 : 1 < length ∧ st.pos + 1 + length ≤ 31 := ⟨hlen, hfit⟩
  simp only [loopBody, hrd, hp, hm, ht, hsw, hq, if_pos hacc2]

/-- C2 (defect in the cursor arithmetic): on the one-byte payload `[0xFF]` the loop never
exits.  The length byte 255 is rejected by the test of line 151, and `pos++` followed by
`pos += 255` brings the 8-bit cursor back to 0, below `data_len = 1`; so for every fuel
and every initial scratch buffer the run is still going when the fuel is spent. -/
theorem printScanInfo_never_exits_on_0xFF :
    ∀ (fuel : Nat) (buffer0 : List Nat),
      printScanInfo (reportOf [0xFF]) buffer0 fuel = Run.outOfFuel := by
  intro fuel buffer0
  have hbody : loopBody (reportOf [0xFF]) { pos := 0, buffer := buffer0, out := [], visits := [] }
      = some { pos := 0, buffer := buffer0, out := [], visits := [] } := by
    rw [loopBody_skip (reportOf [0xFF]) _ 255 (by rfl) (by simp)]
    simp
  unfold printScanInfo
  induction fuel with
  | zero => simp [whileLoop, reportOf]
  | succ n ih =>
    rw [whileLoop, if_pos (by simp [reportOf]), hbody]
    exact ih

/-- C3 (defect in the `default` case): on the payload `[0x03, 0xE0, 0xAA, 0xBB]` the
decoder accepts the structure, copies the data bytes `0xAA, 0xBB` into the scratch buffer,
but prints `data[pos + i]` starting at the type byte: the two unhandled-byte lines carry
`0xE0` and `0xAA`, not `0xAA` and `0xBB`. -/
theorem printScanInfo_unhandled_starts_at_type_byte :
    ∀ fuel : Nat,
      printScanInfo (reportOf [0x03, 0xE0, 0xAA, 0xBB]) zeroBuffer (fuel + 1) =
        Run.done
          { pos := 4
            buffer := [0xAA, 0xBB] ++ List.replicate 30 0
            out := [ADField.unhandled 0xE0, ADField.unhandled 0xAA]
            visits := [{ pos := 1, length := 3, type := 0xE0,
                         buffer := [0xAA, 0xBB] ++ List.replicate 30 0 }] } := by
  intro fuel
  have hbody : loopBody (reportOf [0x03, 0xE0, 0xAA, 0xBB])
      { pos := 0, buffer := zeroBuffer, out := [], visits := [] } =
      some { pos := 4
             buffer := [0xAA, 0xBB] ++ List.replicate 30 0
             out := [ADField.unhandled 0xE0, ADField.unhandled 0xAA]
             visits := [{ pos := 1, length := 3, type := 0xE0,
                          buffer := [0xAA, 0xBB] ++ List.replicate 30 0 }] } := by
    decide
  unfold printScanInfo
  rw [whileLoop, if_pos (by decide), hbody]
  cases fuel <;> simp [whileLoop, reportOf]

end BLEScan

namespace BLEScan

/-- Unfolding of the encoding of a non-empty list of structures. -/
theorem encodeADs_cons (a : ADStructure) (rest : List ADStructure) :
    encodeADs (a :: rest) = (a.data.length + 1) :: a.type :: (a.data ++ encodeADs rest) := by
  simp [encodeADs, encodeAD]

/-- Decoding from a cursor at which the payload continues with the encoding of `as`. -/
theorem whileLoop_encodeADs (si : T_LE_SCAN_INFO) (hdata : si.data.length = 31)
    (hlen : si.data_len ≤ 31) :
    ∀ (as : List ADStructure) (st : LoopState) (pad : List Nat) (fuel : Nat),
      (∀ a ∈ as, a.data ≠ []) →
      si.data.drop st.pos = encodeADs as ++ pad →
      si.data_len = st.pos + (encodeADs as).length →
      st.buffer.length = 32 →
      as.length ≤ fuel →
      ∃ st1, whileLoop si fuel st = Run.done st1 ∧ st1.pos = si.data_len ∧
        st1.visits.map ADVisit.toStructure = st.visits.map ADVisit.toStructure ++ as := by
  intro as
  induction as with
  | nil =>
    intro st pad fuel _ _ hdl _ _
    have hnot : ¬ st.pos < si.data_len := by
      simp [encodeADs] at hdl; omega
    refine ⟨st, ?_, ?_, by simp⟩
    · cases fuel <;> simp [whileLoop, hnot]
    · simp [encodeADs] at hdl; omega
  | cons a rest ih =>
    intro st pad fuel hne hdrop hdl hbuf hfuel
    rw [encodeADs_cons] at hdrop hdl
    simp only [List.length_cons, List.length_append] at hdl
    have hane : a.data ≠ [] := hne a (List.mem_cons_self _ _)
    have hapos : 0 < a.data.length := List.length_pos.mpr hane
    obtain ⟨f, rfl⟩ : ∃ f, fuel = f + 1 := ⟨fuel - 1, by simp at hfuel; omega⟩
    have hlt : st.pos < si.data_len := by omega
    -- the length byte and the type byte
    have h0 : rd8 si.data st.pos = some (a.data.length + 1) := by
      have := congrArg (fun l => l[0]?) hdrop
      simpa [rd8, List.getElem?_drop] using this
    have h1 : rd8 si.data (st.pos + 1) = some a.type := by
      have := congrArg (fun l => l[1]?) hdrop
      simpa [rd8, List.getElem?_drop] using this
    have h2 : si.data.drop (st.pos + 1 + 1) = a.data ++ (encodeADs rest ++ pad) := by
      have := congrArg (fun l => l.drop 2) hdrop
      simpa [List.drop_drop, Nat.add_comm, Nat.add_left_comm, Nat.add_assoc] using this
    obtain ⟨type, fs, b1, ht, hb1, hbody⟩ :=
      loopBody_accept si st (a.data.length + 1) hdata hbuf h0 (by omega) (by omega)
    have htype : type = a.type := by
      rw [h1] at ht; exact (Option.some.inj ht).symm
    subst htype
    have h3 : si.data.drop (st.pos + 1 + (a.data.length + 1)) = encodeADs rest ++ pad := by
      have := congrArg (fun l => l.drop a.data.length) h2
      simpa [List.drop_drop, Nat.add_comm, Nat.add_left_comm, Nat.add_assoc] using this
    obtain ⟨st1, hrun, hpos1, hvis⟩ := ih
      { pos := st.pos + 1 + (a.data.length + 1)
        buffer := b1
        out := st.out ++ fs
        visits := st.visits ++
          [{ pos := st.pos + 1, length := a.data.length + 1, type := a.type,
             buffer := (si.data.drop (st.pos + 1 + 1)).take (a.data.length + 1 - 1) ++
               st.buffer.drop (a.data.length + 1 - 1) }] }
      pad f (fun b hb => hne b (List.mem_cons_of_mem _ hb)) h3
      (by show si.data_len = st.pos + 1 + (a.data.length + 1) + (encodeADs rest).length; omega)
      hb1 (by simp at hfuel; omega)
    refine ⟨st1, ?_, hpos1, ?_⟩
    · rw [whileLoop, if_pos hlt, hbody]
      exact hrun
    · rw [hvis]
      simp [ADVisit.toStructure, h2, List.take_append_of_le_length]

/-- C5: round trip.  For AD structures with non-empty data whose encodings, of total size
at most 31, are laid one after the other at the start of the 31-byte array (whatever
follows them), with `data_len` the encoded size and any 32-byte scratch buffer, the loop
ends (given at least one unit of fuel per structure); it accepts exactly those
structures, in order, each with its own type byte and its own data bytes at the start of
the scratch buffer, and the cursor ends equal to the payload length. -/
theorem printScanInfo_roundtrip (as : List ADStructure) (pad buffer0 : List Nat) (fuel : Nat)
    (hne : ∀ a ∈ as, a.data ≠ [])
    (hsize : (encodeADs as).length ≤ 31)
    (hpad : (encodeADs as ++ pad).length = 31)
    (hbuf : buffer0.length = 32)
    (hfuel : as.length ≤ fuel) :
    ∃ st,
      printScanInfo { data := encodeADs as ++ pad, data_len := (encodeADs as).length }
        buffer0 fuel = Run.done st ∧
      st.visits.map ADVisit.toStructure = as ∧
      st.pos = (encodeADs as).length := by
  obtain ⟨st1, hrun, hpos, hvis⟩ :=
    whileLoop_encodeADs { data := encodeADs as ++ pad, data_len := (encodeADs as).length }
      hpad hsize as { pos := 0, buffer := buffer0, out := [], visits := [] } pad fuel
      hne (by simp) (by simp) hbuf hfuel
  exact ⟨st1, hrun, by simpa using hvis, hpos⟩

/-- Instance of `printScanInfo_roundtrip`: a Flags structure followed by a two-letter
complete local name. -/
theorem printScanInfo_roundtrip_witness :
    ((∀ a ∈ [ADStructure.mk 0x01 [0x06], ADStructure.mk 0x09 [0x41, 0x42]], a.data ≠ []) ∧
      (encodeADs [ADStructure.mk 0x01 [0x06], ADStructure.mk 0x09 [0x41, 0x42]]).length ≤ 31 ∧
      (encodeADs [ADStructure.mk 0x01 [0x06], ADStructure.mk 0x09 [0x41, 0x42]] ++
        List.replicate 24 0).length = 31 ∧
      zeroBuffer.length = 32 ∧
      [ADStructure.mk 0x01 [0x06], ADStructure.mk 0x09 [0x41, 0x42]].length ≤ 2) ∧
    ∃ st,
      printScanInfo
        { data := encodeADs [ADStructure.mk 0x01 [0x06], ADStructure.mk 0x09 [0x41, 0x42]] ++
            List.replicate 24 0
          data_len :=
            (encodeADs [ADStructure.mk 0x01 [0x06], ADStructure.mk 0x09 [0x41, 0x42]]).length }
        zeroBuffer 2 = Run.done st ∧
      st.visits.map ADVisit.toStructure =
        [ADStructure.mk 0x01 [0x06], ADStructure.mk 0x09 [0x41, 0x42]] ∧
      st.pos = (encodeADs [ADStructure.mk 0x01 [0x06], ADStructure.mk 0x09 [0x41, 0x42]]).length :=
  ⟨by decide,
   printScanInfo_roundtrip [ADStructure.mk 0x01 [0x06], ADStructure.mk 0x09 [0x41, 0x42]]
     (List.replicate 24 0) zeroBuffer 2 (by decide) (by decide) (by decide) (by decide)
     (by decide)⟩

end BLEScan

/-! ## Theorems: session flag and remaining setters -/

namespace BLEScan

/-- C16: for every 16-bit `ms` below 3 or above 10240, `setScanInterval(ms)` changes
nothing: the interval and every other member are as before. -/
theorem setScanInterval_out_of_range (ms : Nat) (s : BLEScan) (_hms : ms < 65536)
    (h : ms < 3 ∨ 10240 < ms) :
    setScanInterval ms s = s := by
  have hn : ¬ (3 ≤ ms ∧ ms ≤ 10240) := by omega
  simp [setScanInterval, hn]

/-- Instances of `setScanInterval_out_of_range` at `ms = 2` and `ms = 10241`. -/
theorem setScanInterval_out_of_range_witness :
    ((2 < 65536 ∧ (2 < 3 ∨ 10240 < 2)) ∧ setScanInterval 2 sampleScan = sampleScan) ∧
    ((10241 < 65536 ∧ (10241 < 3 ∨ 10240 < 10241)) ∧
      setScanInterval 10241 sampleScan = sampleScan) :=
  ⟨⟨by decide, setScanInterval_out_of_range 2 sampleScan (by decide) (by decide)⟩,
   ⟨by decide, setScanInterval_out_of_range 10241 sampleScan (by decide) (by decide)⟩⟩

/-- C17: when the session flag is clear, `stopScan()` only prints the "there is no scan"
notice: no `le_scan_stop` is issued and the session stays idle.  When the flag is set,
`stopScan()` issues `le_scan_stop` and clears the flag; the value returned by
`le_scan_stop()` is discarded by the code, so the outcome does not depend on it. -/
theorem stopScan_cases (s : BLEScan) :
    (s._scanProcessing = 0 →
      stopScan s = { s with trace := s.trace ++ [ScanAction.printf Notice.thereIsNoScan] } ∧
      scanInProgress (stopScan s) = false) ∧
    (s._scanProcessing ≠ 0 →
      stopScan s = { s with _scanProcessing := 0, trace := s.trace ++ [ScanAction.le_scan_stop] } ∧
      scanInProgress (stopScan s) = false) := by
  constructor
  · intro h
    simp [stopScan, scanInProgress, h]
  · intro h
    simp [stopScan, scanInProgress, h]

/-- Instances of `stopScan_cases`: a stop of the idle `sampleScan` and a stop of the
session of `activeScan`. -/
theorem stopScan_cases_witness :
    (sampleScan._scanProcessing = 0 ∧ scanInProgress (stopScan sampleScan) = false) ∧
    (activeScan._scanProcessing ≠ 0 ∧ scanInProgress (stopScan activeScan) = false) :=
  ⟨⟨by decide, ((stopScan_cases sampleScan).1 (by decide)).2⟩,
   ⟨by decide, ((stopScan_cases activeScan).2 (by decide)).2⟩⟩

/-- C20: whatever the session state, the duration and the answer of the radio,
`startScan(scanDuration_ms)` ends with the session idle.  Called while a scan is in
progress it prints the "scan is processing" notice, waits, issues `le_scan_stop` for the
scan that was already running, clears the flag and waits again. -/
theorem startScanFor_ends_idle (K : GapConsts) (cause scanDuration_ms : Nat) (s : BLEScan) :
    (startScanFor K cause scanDuration_ms s)._scanProcessing = 0 ∧
    scanInProgress (startScanFor K cause scanDuration_ms s) = false ∧
    (s._scanProcessing ≠ 0 →
      startScanFor K cause scanDuration_ms s =
        { s with
          _scanProcessing := 0
          trace := s.trace ++
            [ScanAction.printf Notice.scanIsProcessing,
             ScanAction.vTaskDelay (scanDuration_ms / K.portTICK_RATE_MS),
             ScanAction.le_scan_stop,
             ScanAction.vTaskDelay (100 / K.portTICK_RATE_MS)] }) := by
  have hflag : (startScanFor K cause scanDuration_ms s)._scanProcessing = 0 := by
    by_cases h : s._scanProcessing = 0
    · by_cases hc : cause = K.GAP_CAUSE_SUCCESS
      · simp [startScanFor, startScan, stopScan, h, hc]
      · simp [startScanFor, startScan, stopScan, h, hc]
    · simp [startScanFor, startScan, stopScan, h]
  refine ⟨hflag, by simp [scanInProgress, hflag], ?_⟩
  intro h
  simp [startScanFor, startScan, stopScan, h]

/-- Instance of `startScanFor_ends_idle`: a timed scan requested during the session of
`activeScan`. -/
theorem startScanFor_ends_idle_witness :
    activeScan._scanProcessing ≠ 0 ∧
    startScanFor sdkConsts 0 500 activeScan =
      { activeScan with
        _scanProcessing := 0
        trace := activeScan.trace ++
          [ScanAction.printf Notice.scanIsProcessing,
           ScanAction.vTaskDelay (500 / sdkConsts.portTICK_RATE_MS),
           ScanAction.le_scan_stop,
           ScanAction.vTaskDelay (100 / sdkConsts.portTICK_RATE_MS)] } :=
  ⟨by decide, (startScanFor_ends_idle sdkConsts 0 500 activeScan).2.2 (by decide)⟩

end BLEScan

/-! ## Theorems: decoded fields, bounds and scratch-buffer dependence -/

namespace BLEScan

/-- One iteration started below `data_len` makes no out-of-range access and keeps the
scratch buffer 32 bytes long. -/
theorem loopBody_isSome (si : T_LE_SCAN_INFO) (st : LoopState)
    (hdata : si.data.length = 31) (hlen : si.data_len ≤ 31)
    (hbuf : st.buffer.length = 32) (hpos : st.pos < si.data_len) :
    ∃ st1, loopBody si st = some st1 ∧ st1.buffer.length = 32 := by
  have hrd := rd8_of_lt si.data st.pos (by omega)
  have hp : (st.pos + 1) % 256 = st.pos + 1 := Nat.mod_eq_of_lt (by omega)
  by_cases hacc : 1 < si.data.getD st.pos 0 ∧ st.pos + 1 + si.data.getD st.pos 0 ≤ 31
  · obtain ⟨type, fs, b1, _, hb1, hbody⟩ :=
      loopBody_accept si st _ hdata hbuf hrd hacc.1 hacc.2
    exact ⟨_, hbody, hb1⟩
  · have hbody := loopBody_skip si st _ hrd (by rw [hp]; exact hacc)
    exact ⟨_, hbody, hbuf⟩

/-- The run never reaches an out-of-range access from a state with a 32-byte buffer. -/
theorem whileLoop_ne_outOfRange (si : T_LE_SCAN_INFO)
    (hdata : si.data.length = 31) (hlen : si.data_len ≤ 31) :
    ∀ (fuel : Nat) (st : LoopState), st.buffer.length = 32 →
      whileLoop si fuel st ≠ Run.outOfRange := by
  intro fuel
  induction fuel with
  | zero =>
    intro st _
    unfold whileLoop
    split_ifs <;> simp
  | succ n ih =>
    intro st hbuf
    unfold whileLoop
    by_cases hpos : st.pos < si.data_len
    · obtain ⟨st1, hbody, hb1⟩ := loopBody_isSome si st hdata hlen hbuf hpos
      rw [if_pos hpos, hbody]
      exact ih st1 hb1
    · rw [if_neg hpos]; simp

/-- C18: for a report with `data_len <= 31` in its 31-byte payload array and a 32-byte
scratch buffer, no run of the decoder, however long, reaches an out-of-range access: every
read of the payload is at an index below 31 and every read or write of the scratch buffer
at an index below 32 (the copy, the type read, the per-type reads, the NUL of the local
name and the string read that follows it). -/
theorem printScanInfo_no_out_of_range (si : T_LE_SCAN_INFO) (buffer0 : List Nat) (fuel : Nat)
    (hdata : si.data.length = 31) (hlen : si.data_len ≤ 31) (hbuf : buffer0.length = 32) :
    printScanInfo si buffer0 fuel ≠ Run.outOfRange :=
  whileLoop_ne_outOfRange si hdata hlen fuel _ hbuf

/-- Instance of `printScanInfo_no_out_of_range`: a full 31-byte payload holding a local
name of 29 letters followed by a stray length byte, run for 5 iterations. -/
theorem printScanInfo_no_out_of_range_witness :
    ((reportOf (29 :: 0x09 :: List.replicate 28 0x41 ++ [0x07])).data.length = 31 ∧
      (reportOf (29 :: 0x09 :: List.replicate 28 0x41 ++ [0x07])).data_len ≤ 31 ∧
      zeroBuffer.length = 32) ∧
    printScanInfo (reportOf (29 :: 0x09 :: List.replicate 28 0x41 ++ [0x07])) zeroBuffer 5 ≠
      Run.outOfRange :=
  ⟨by decide,
   printScanInfo_no_out_of_range (reportOf (29 :: 0x09 :: List.replicate 28 0x41 ++ [0x07]))
     zeroBuffer 5 (by decide) (by decide) (by decide)⟩

/-- C12: for every byte `b` and every 32-byte scratch buffer, decoding the payload
`[0x02, 0x01, b]` with `data_len = 3` ends after one iteration with exactly one line
printed, the Flags line carrying `b`. -/
theorem printScanInfo_flags (b : Nat) (buffer0 : List Nat) (fuel : Nat)
    (_hb : b < 256) (hbuf : buffer0.length = 32) :
    ∃ st, printScanInfo (reportOf [0x02, 0x01, b]) buffer0 (fuel + 1) = Run.done st ∧
      st.out = [ADField.flags b] ∧ st.pos = 3 := by
  have hbody : loopBody (reportOf [0x02, 0x01, b])
      { pos := 0, buffer := buffer0, out := [], visits := [] } =
      some { pos := 3
             buffer := b :: buffer0.drop 1
             out := [ADField.flags b]
             visits := [{ pos := 1, length := 2, type := 0x01,
                          buffer := b :: buffer0.drop 1 }] } := by
    simp [loopBody, reportOf, memcpy, rd8, padTo31, adSwitch, GAP_ADTYPE_FLAGS, hbuf]
  refine ⟨{ pos := 3
            buffer := b :: buffer0.drop 1
            out := [ADField.flags b]
            visits := [{ pos := 1, length := 2, type := 0x01,
                         buffer := b :: buffer0.drop 1 }] }, ?_, rfl, rfl⟩
  unfold printScanInfo
  rw [whileLoop, if_pos (by simp [reportOf]), hbody]
  cases fuel <;> simp [whileLoop, reportOf]

/-- Instance of `printScanInfo_flags` at the byte `0x06` of the specification example. -/
theorem printScanInfo_flags_witness :
    ((0x06 : Nat) < 256 ∧ zeroBuffer.length = 32) ∧
    ∃ st, printScanInfo (reportOf [0x02, 0x01, 0x06]) zeroBuffer (0 + 1) = Run.done st ∧
      st.out = [ADField.flags 0x06] ∧ st.pos = 3 :=
  ⟨by decide, printScanInfo_flags 0x06 zeroBuffer 0 (by decide) (by decide)⟩

end BLEScan

namespace BLEScan

/-- C14 (defect in `length - 3`): on the payloads `[0x02, 0x16, 0x07]` and
`[0x02, 0xFF, 0x07]` the structure is accepted with a single data byte; the 8-bit
`data_len = length - 3` wraps to 255, which is what is printed as the remaining length
(nothing follows the identifier, and 255 is above 27), and the identifier is read from
scratch bytes 0 and 1 although only byte 0 was copied. -/
theorem printScanInfo_remaining_length_wraps :
    printScanInfo (reportOf [0x02, 0x16, 0x07]) zeroBuffer 1 =
      Run.done
        { pos := 3
          buffer := 0x07 :: List.replicate 31 0
          out := [ADField.serviceData 0x07 255]
          visits := [{ pos := 1, length := 2, type := 0x16,
                       buffer := 0x07 :: List.replicate 31 0 }] } ∧
    printScanInfo (reportOf [0x02, 0xFF, 0x07]) zeroBuffer 1 =
      Run.done
        { pos := 3
          buffer := 0x07 :: List.replicate 31 0
          out := [ADField.manufacturerSpecific 0x07 255]
          visits := [{ pos := 1, length := 2, type := 0xFF,
                       buffer := 0x07 :: List.replicate 31 0 }] } := by
  decide

/-- C19 (defect in the fixed-width cases): the printed fields depend on the scratch
buffer.  The payload `[0x02, 0x19, 0x05]` (Appearance with one data byte) prints 5 from a
zeroed scratch buffer and 261 from one whose byte 1 is 1; and after the local name "AB"
the same Appearance structure prints `0x4205`, its high byte being the `B` copied for the
earlier structure. -/
theorem printScanInfo_depends_on_scratch :
    (printScanInfo (reportOf [0x02, 0x19, 0x05]) zeroBuffer 1).fields =
      some [ADField.appearance 5] ∧
    (printScanInfo (reportOf [0x02, 0x19, 0x05]) (0 :: 1 :: List.replicate 30 0) 1).fields =
      some [ADField.appearance 261] ∧
    (printScanInfo (reportOf [0x03, 0x09, 0x41, 0x42, 0x02, 0x19, 0x05]) zeroBuffer 2).fields =
      some [ADField.localName [0x41, 0x42], ADField.appearance 0x4205] := by
  decide

/-- Lines already printed are carried through one iteration unchanged. -/
theorem loopBody_out_frame (si : T_LE_SCAN_INFO) (st : LoopState) (before : List ADField) :
    loopBody si { st with out := before ++ st.out } =
      (loopBody si st).map (fun s => { s with out := before ++ s.out }) := by
  simp only [loopBody]
  cases rd8 si.data st.pos with
  | none => rfl
  | some length =>
    dsimp only
    by_cases hacc : 1 < length ∧ (st.pos + 1) % 256 + length ≤ 31
    · rw [if_pos hacc, if_pos hacc]
      cases memcpy st.buffer si.data ((st.pos + 1) % 256 + 1) (length - 1) with
      | none => rfl
      | some buffer =>
        dsimp only
        cases rd8 si.data ((st.pos + 1) % 256) with
        | none => rfl
        | some type =>
          dsimp only
          cases adSwitch si.data ((st.pos + 1) % 256) length type buffer with
          | none => rfl
          | some p => simp [List.append_assoc]
    · rw [if_neg hacc, if_neg hacc]; rfl

/-- Lines already printed are carried through a run unchanged. -/
theorem whileLoop_out_frame (si : T_LE_SCAN_INFO) (before : List ADField) :
    ∀ (fuel : Nat) (st : LoopState),
      whileLoop si fuel { st with out := before ++ st.out } =
        (whileLoop si fuel st).printedAfter before := by
  intro fuel
  induction fuel with
  | zero =>
    intro st
    by_cases hpos : st.pos < si.data_len
    · simp [whileLoop, hpos, Run.printedAfter]
    · simp [whileLoop, hpos, Run.printedAfter]
  | succ n ih =>
    intro st
    by_cases hpos : st.pos < si.data_len
    · rw [whileLoop, whileLoop, if_pos hpos, if_pos hpos, loopBody_out_frame]
      cases loopBody si st with
      | none => rfl
      | some st1 => exact ih st1
    · simp [whileLoop, hpos, Run.printedAfter]

/-- C13: when the loop, with `data_len <= 31`, is at a cursor `p < data_len` whose byte is
1, the iteration prints nothing, accepts nothing, leaves the scratch buffer alone and
moves the cursor to `p + 2`, where the next length byte is read; so the lines of the
whole run are those printed before, followed by those of the run continued at `p + 2`. -/
theorem whileLoop_length_one (si : T_LE_SCAN_INFO) (st : LoopState) (fuel : Nat)
    (hlen : si.data_len ≤ 31) (hpos : st.pos < si.data_len)
    (hrd : rd8 si.data st.pos = some 1) :
    loopBody si st = some { st with pos := st.pos + 2 } ∧
    whileLoop si (fuel + 1) st =
      (whileLoop si fuel
        { pos := st.pos + 2, buffer := st.buffer, out := [], visits := st.visits }).printedAfter
        st.out := by
  have hbody : loopBody si st = some { st with pos := st.pos + 2 } := by
    rw [loopBody_skip si st 1 hrd (by omega)]
    have h1 : ((st.pos + 1) % 256 + 1) % 256 = st.pos + 2 := by omega
    rw [h1]
  refine ⟨hbody, ?_⟩
  rw [whileLoop, if_pos hpos, hbody, ← whileLoop_out_frame]
  simp

/-- Instance of `whileLoop_length_one`: the payload `[0x01, 0xEE, 0x02, 0x01, 0x06]`, whose
first structure has length byte 1; the Flags structure at offset 2 is decoded next. -/
theorem whileLoop_length_one_witness :
    ((reportOf [0x01, 0xEE, 0x02, 0x01, 0x06]).data_len ≤ 31 ∧
      0 < (reportOf [0x01, 0xEE, 0x02, 0x01, 0x06]).data_len ∧
      rd8 (reportOf [0x01, 0xEE, 0x02, 0x01, 0x06]).data 0 = some 1) ∧
    whileLoop (reportOf [0x01, 0xEE, 0x02, 0x01, 0x06]) (1 + 1)
        { pos := 0, buffer := zeroBuffer, out := [], visits := [] } =
      (whileLoop (reportOf [0x01, 0xEE, 0x02, 0x01, 0x06]) 1
        { pos := 0 + 2, buffer := zeroBuffer, out := [], visits := [] }).printedAfter [] :=
  ⟨by decide,
   (whileLoop_length_one (reportOf [0x01, 0xEE, 0x02, 0x01, 0x06])
     { pos := 0, buffer := zeroBuffer, out := [], visits := [] } 1
     (by decide) (by decide) (by decide)).2⟩

end BLEScan

namespace BLEScan

/-- The exact state after an accepted structure, given what the `switch` returns. -/
theorem loopBody_accept_eq (si : T_LE_SCAN_INFO) (st : LoopState) (length type : Nat)
    (fs : List ADField) (b1 : List Nat)
    (hdata : si.data.length = 31) (hbuf : st.buffer.length = 32)
    (hrd : rd8 si.data st.pos = some length)
    (hlen : 1 < length) (hfit : st.pos + 1 + length ≤ 31)
    (ht : rd8 si.data (st.pos + 1) = some type)
    (hsw : adSwitch si.data (st.pos + 1) length type
      (adData si (st.pos + 1) length ++ st.buffer.drop (length - 1)) = some (fs, b1)) :
    loopBody si st = some
      { pos := st.pos + 1 + length
        buffer := b1
        out := st.out ++ fs
        visits := st.visits ++
          [{ pos := st.pos + 1, length := length, type := type,
             buffer := adData si (st.pos + 1) length ++ st.buffer.drop (length - 1) }] } := by
  have hp : (st.pos + 1) % 256 = st.pos + 1 := Nat.mod_eq_of_lt (by omega)
  have hq : (st.pos + 1 + length) % 256 = st.pos + 1 + length := Nat.mod_eq_of_lt (by omega)
  have hacc : 1 < length ∧ st.pos + 1 + length ≤ 31 := ⟨hlen, hfit⟩
  have hm := (memcpy_of_le st.buffer si.data (st.pos + 1 + 1) (length - 1)
    (by omega) (by omega)).1
  unfold adData at hsw ⊢
  simp only [loopBody, hrd, hp, hm, ht, hsw, hq, if_pos hacc]

/-- The 16-bit UUID loop prints `i / 2` values, the `k`-th read little-endian from the
bytes `off + 2 k` and `off + 2 k + 1`. -/
theorem uuid16Loop_eq (buffer : List Nat) (i : Nat) :
    ∀ off, off + i ≤ buffer.length →
      uuid16Loop buffer off i =
        some ((List.range (i / 2)).map (fun k =>
          ADField.uuid16 (buffer.getD (off + 2 * k) 0 + 256 * buffer.getD (off + 2 * k + 1) 0))) := by
  induction i using Nat.strong_induction_on with
  | _ i ih =>
    intro off h
    match i with
    | 0 => simp [uuid16Loop]
    | 1 => simp [uuid16Loop]
    | j + 2 =>
      have hdiv : (j + 2) / 2 = j / 2 + 1 := by omega
      have hrest := ih j (by omega) (off + 2) (by omega)
      have hfun : (fun k => ADField.uuid16 (buffer.getD (off + 2 + 2 * k) 0 +
            256 * buffer.getD (off + 2 + 2 * k + 1) 0)) =
          (fun k => ADField.uuid16 (buffer.getD (off + 2 * k) 0 +
            256 * buffer.getD (off + 2 * k + 1) 0)) ∘ Nat.succ := by
        funext k
        have e1 : off + 2 + 2 * k = off + 2 * (k + 1) := by omega
        simp only [Function.comp, Nat.succ_eq_add_one, e1]
      simp only [uuid16Loop, rd16_of_lt buffer off (by omega), hrest, hdiv,
        List.range_succ_eq_map, List.map_cons, List.map_map, hfun]
      simp

/-- C11: an accepted structure of type 0x02 or 0x03 with declared length `L` prints
exactly `(L - 1) / 2` UUID lines, in payload order, the `k`-th carrying
`d[2k] + 256 * d[2k+1]` for the data bytes `d` that follow the type byte; a trailing odd
byte prints nothing. -/
theorem loopBody_uuid16 (si : T_LE_SCAN_INFO) (st : LoopState) (L type : Nat)
    (hdata : si.data.length = 31) (hbuf : st.buffer.length = 32)
    (hrd : rd8 si.data st.pos = some L)
    (hlen : 1 < L) (hfit : st.pos + 1 + L ≤ 31)
    (ht : rd8 si.data (st.pos + 1) = some type)
    (h16 : type = GAP_ADTYPE_16BIT_MORE ∨ type = GAP_ADTYPE_16BIT_COMPLETE) :
    ∃ st1, loopBody si st = some st1 ∧
      st1.out = st.out ++ (List.range ((L - 1) / 2)).map (fun k =>
        ADField.uuid16 ((adData si (st.pos + 1) L).getD (2 * k) 0 +
          256 * (adData si (st.pos + 1) L).getD (2 * k + 1) 0)) := by
  have c1 : ¬ type = GAP_ADTYPE_FLAGS := by
    rcases h16 with h | h <;> simp [h, GAP_ADTYPE_FLAGS, GAP_ADTYPE_16BIT_MORE,
      GAP_ADTYPE_16BIT_COMPLETE]
  have hdlen : (adData si (st.pos + 1) L).length = L - 1 := by
    simp only [adData, List.length_take, List.length_drop]; omega
  have hmod : (L - 1) % 256 = L - 1 := Nat.mod_eq_of_lt (by omega)
  have hloop := uuid16Loop_eq (adData si (st.pos + 1) L ++ st.buffer.drop (L - 1)) (L - 1) 0
    (by simp only [List.length_append, hdlen]; omega)
  have hmap : (List.range ((L - 1) / 2)).map (fun k =>
        ADField.uuid16 ((adData si (st.pos + 1) L ++ st.buffer.drop (L - 1)).getD (0 + 2 * k) 0 +
          256 * (adData si (st.pos + 1) L ++ st.buffer.drop (L - 1)).getD (0 + 2 * k + 1) 0)) =
      (List.range ((L - 1) / 2)).map (fun k =>
        ADField.uuid16 ((adData si (st.pos + 1) L).getD (2 * k) 0 +
          256 * (adData si (st.pos + 1) L).getD (2 * k + 1) 0)) := by
    apply List.map_congr_left
    intro k hk
    have hk1 : k < (L - 1) / 2 := List.mem_range.mp hk
    have i0 : 2 * k < (adData si (st.pos + 1) L).length := by omega
    have i1 : 2 * k + 1 < (adData si (st.pos + 1) L).length := by omega
    simp only [Nat.zero_add, List.getD_append _ _ _ _ i0, List.getD_append _ _ _ _ i1]
  have hsw : adSwitch si.data (st.pos + 1) L type
      (adData si (st.pos + 1) L ++ st.buffer.drop (L - 1)) =
      some ((List.range ((L - 1) / 2)).map (fun k =>
        ADField.uuid16 ((adData si (st.pos + 1) L).getD (2 * k) 0 +
          256 * (adData si (st.pos + 1) L).getD (2 * k + 1) 0)),
        adData si (st.pos + 1) L ++ st.buffer.drop (L - 1)) := by
    unfold adSwitch
    rw [if_neg c1, if_pos h16, hmod, hloop, hmap]
  exact ⟨_, loopBody_accept_eq si st L type _ _ hdata hbuf hrd hlen hfit ht hsw, rfl⟩

/-- Instance of `loopBody_uuid16`: the payload `[0x05, 0x02, 0x0A, 0x18, 0x0D, 0x18]`
prints `0x180A` then `0x180D`. -/
theorem loopBody_uuid16_witness :
    ((reportOf [0x05, 0x02, 0x0A, 0x18, 0x0D, 0x18]).data.length = 31 ∧
      zeroBuffer.length = 32 ∧
      rd8 (reportOf [0x05, 0x02, 0x0A, 0x18, 0x0D, 0x18]).data 0 = some 5 ∧
      1 < 5 ∧ 0 + 1 + 5 ≤ 31 ∧
      rd8 (reportOf [0x05, 0x02, 0x0A, 0x18, 0x0D, 0x18]).data (0 + 1) = some 0x02 ∧
      (0x02 = GAP_ADTYPE_16BIT_MORE ∨ 0x02 = GAP_ADTYPE_16BIT_COMPLETE)) ∧
    ∃ st1,
      loopBody (reportOf [0x05, 0x02, 0x0A, 0x18, 0x0D, 0x18])
        { pos := 0, buffer := zeroBuffer, out := [], visits := [] } = some st1 ∧
      st1.out = [ADField.uuid16 0x180A, ADField.uuid16 0x180D] :=
  ⟨by decide,
   (loopBody_uuid16 (reportOf [0x05, 0x02, 0x0A, 0x18, 0x0D, 0x18])
     { pos := 0, buffer := zeroBuffer, out := [], visits := [] } 5 0x02
     (by decide) (by decide) (by decide) (by decide) (by decide) (by decide)
     (by decide)).imp (fun _ h => ⟨h.1, h.2.trans (by decide)⟩)⟩

end BLEScan

/-! ## Theorems: the acceptance test of line 151 -/

namespace BLEScan

end BLEScan
